import Mathlib

/-!
# ttrgb: Thermaltake Riing controller driver (`main.go`)

A shallow embedding of `main.go`: the protocol constants, the four device
operations `lightOn`, `lightOff`, `lightPulse`, `setSpeed`, and `main`.

The USB endpoints are external (`gousb`).  Their behaviour is a parameter of
the model: `Endpoints` gives, for every history of transfers, the result of the
next `Write` on the OUT endpoint and of the next `Read` on the IN endpoint.
Every operation threads the history (`List Event`) explicitly and appends one
event per endpoint call, so "which frames were written, in which order, and
whether a read happened" can be read off the returned history.

`log.Fatal()...Msgf(...)` of zerolog ends the process (`os.Exit(1)`), as the
library documents it: it is the outcome `Outcome.exited`.  `log.Debug()` and `log.Error()` only print and are
left out.  `time.Sleep` is left out as well.
-/

namespace TTRGB

/-! ## Data model -/

/-- A Go `byte`: a natural number below 256. -/
abbrev Byte := Fin 256

/-- Addition of two Go `byte` values: the sum wraps around modulo 256. -/
def byteAdd (a b : Byte) : Byte :=
  ⟨(a.val + b.val) % 256, Nat.mod_lt _ (by decide)⟩

/-- A Go `error` value: `none` is `nil`, `some msg` is a non-nil error. -/
abbrev GoError := Option String

/-- One call on an endpoint. -/
inductive Event where
  /-- The call `ep.Write(frame)` on the OUT endpoint. -/
  | write (frame : List Byte)
  /-- The call `ep.Read(buf)` on the IN endpoint, `size` being `len(buf)`. -/
  | read (size : Nat)
deriving DecidableEq, Repr

/-- What `OutEndpoint.Write` returns: `(numBytes, err)`. -/
structure WriteResult where
  numBytes : Int
  err : GoError
deriving DecidableEq, Repr

/-- A 64-byte buffer, `make([]byte, 64)`. -/
structure Buffer64 where
  data : List Byte
  size : data.length = 64

/-- What `InEndpoint.Read` returns, `(numBytes, err)`, and the content of the
64-byte buffer it was given once the call is over. -/
structure ReadResult where
  numBytes : Int
  err : GoError
  buf : Buffer64

/-- The behaviour of the device behind the two endpoints: the result of the
next call, given the calls made so far (and the frame, for a write). -/
structure Endpoints where
  write : List Event → List Byte → WriteResult
  read : List Event → ReadResult

/-- How a Go function call ends. -/
inductive Outcome (α : Type) where
  /-- The function returned the value `a` to its caller. -/
  | returned (a : α)
  /-- The process ended in `log.Fatal` (`os.Exit(1)`). -/
  | exited
  /-- The process ended in a run-time panic. -/
  | panicked
deriving DecidableEq, Repr

/-- The expression `buf[lo:hi]` on a slice, for `lo ≤ hi ≤ len(buf)`. -/
def slice (buf : List Byte) (lo hi : Nat) : List Byte :=
  (buf.drop lo).take (hi - lo)

/-- The function `bytes.Equal`. -/
def bytesEqual (a b : List Byte) : Bool :=
  decide (a = b)

/-- The byte `buf[i]` of a 64-byte buffer, for `i < 64`. -/
def Buffer64.at (buf : Buffer64) (i : Fin 64) : Byte :=
  buf.data.get ⟨i.val, by rw [buf.size]; exact i.isLt⟩

/-! ## Constants (`main.go`, lines 24-59) -/

def USBVID : Nat := 0x264a
def USBPID : Nat := 0x1fa5
def ProtocolGet : Byte := 0x33
def ProtocolSet : Byte := 0x32
def ProtocolFan : Byte := 0x51
def ProtocolLight : Byte := 0x52
def RGBSpeedExtreme : Byte := 0x00
def RGBSpeedFast : Byte := 0x01
def RGBSpeedNormal : Byte := 0x02
def RGBSpeedSlow : Byte := 0x03
def RGBModeFlow : Byte := 0x00
def RGBModeSpectrum : Byte := 0x04
def RGBModeRipple : Byte := 0x08
def RGBModeBlink : Byte := 0x0c
def RGBModePulse : Byte := 0x10
def RGBModeWave : Byte := 0x14
def RGBModePerLed : Byte := 0x18
def RGBModeFull : Byte := 0x19
def ControllerPort1 : Byte := 0x01
def ControllerPort2 : Byte := 0x02
def ControllerPort3 : Byte := 0x03
def ControllerPort4 : Byte := 0x04
def ControllerPort5 : Byte := 0x05

def StatusSuccess : List Byte := [0xfc]
def StatusFail : List Byte := [0xfe]
def CommandInit : List Byte := [0xfe, 0x33]
def CommandGetFWVersion : List Byte := [0x33, 0x50]
def CommandSaveProfile : List Byte := [0x32, 0x53]
def CommandSetSpeed : List Byte := [0x32, 0x51]
def CommandSetRGB : List Byte := [0x32, 0x52]
def CommandGetData : List Byte := [0x33, 0x51]

/-! ## The device operations (`main.go`, lines 176-230) -/

/-- The function `lightOn` (lines 177-186): builds the frame, writes it on the
OUT endpoint, ends the process if the byte count differs from the frame
length, returns `nil` otherwise. -/
def lightOn (ep : Endpoints) (tr : List Event) (port r g b : Byte) :
    Outcome GoError × List Event :=
  let frame := CommandSetRGB ++ [port, RGBModeFull, g, r, b]
  let res := ep.write tr frame
  let tr1 := tr ++ [Event.write frame]
  if res.numBytes ≠ (frame.length : Int) then
    (Outcome.exited, tr1)
  else
    (Outcome.returned none, tr1)

/-- The function `lightOff` (lines 188-197). -/
def lightOff (ep : Endpoints) (tr : List Event) (port : Byte) :
    Outcome GoError × List Event :=
  let frame := CommandSetRGB ++ [port, RGBModeFull, 0, 0, 0]
  let res := ep.write tr frame
  let tr1 := tr ++ [Event.write frame]
  if res.numBytes ≠ (frame.length : Int) then
    (Outcome.exited, tr1)
  else
    (Outcome.returned none, tr1)

/-- The function `lightPulse` (lines 199-207); `RGBModePulse+speed` is byte
addition. -/
def lightPulse (ep : Endpoints) (tr : List Event) (port speed r g b : Byte) :
    Outcome GoError × List Event :=
  let frame := CommandSetRGB ++ [port, byteAdd RGBModePulse speed, g, r, b]
  let res := ep.write tr frame
  let tr1 := tr ++ [Event.write frame]
  if res.numBytes ≠ (frame.length : Int) then
    (Outcome.exited, tr1)
  else
    (Outcome.returned none, tr1)

/-- The function `setSpeed` (lines 209-230): writes the frame (ending the
process on a wrong byte count), reads a 64-byte reply, returns an error when
the read is short or failed or when byte 2 of the reply is not `0xfc`. -/
def setSpeed (ep : Endpoints) (tr : List Event) (port speed : Byte) :
    Outcome GoError × List Event :=
  let command := CommandSetSpeed ++ [port, 0x01, speed]
  let res := ep.write tr command
  let tr1 := tr ++ [Event.write command]
  if res.numBytes ≠ (command.length : Int) then
    (Outcome.exited, tr1)
  else
    let rd := ep.read tr1
    let tr2 := tr1 ++ [Event.read 64]
    if rd.numBytes ≠ 64 ∨ rd.err ≠ none then
      (Outcome.returned (some "failed to read from setSpeed command"), tr2)
    else if !bytesEqual (slice rd.buf.data 2 3) StatusSuccess then
      (Outcome.returned (some "device failed to process setSpeed command"), tr2)
    else
      (Outcome.returned none, tr2)

/-! ## `main` (lines 75-174) -/

/-- The conversion `zerolog.Level(x)` of an `int` to `int8`. -/
def toInt8 (x : Int) : Int :=
  (x + 128) % 256 - 128

/-- The expression `zerolog.Level(5 % verbose)` of line 79: `none` when the
division panics (`verbose = 0`); Go's `%` truncates towards zero. -/
def logLevel (verbose : Int) : Option Int :=
  if verbose = 0 then none else some (toInt8 (Int.tmod 5 verbose))

/-- The outcome of the `gousb` calls of lines 82-124 that open the device and
its endpoints: each flag says that the call failed. -/
structure UsbSetup where
  openErr : Bool
  devNil : Bool
  autoDetachErr : Bool
  defaultInterfaceErr : Bool
  outEndpointErr : Bool
  inEndpointErr : Bool
deriving DecidableEq, Repr

/-- The result of a call whose returned error `main` ignores: the process
goes on when the call returned, and ends when the call ended it. -/
def andThen (step : Outcome GoError × List Event)
    (next : List Event → Outcome Unit × List Event) : Outcome Unit × List Event :=
  match step with
  | (Outcome.returned _, tr) => next tr
  | (Outcome.exited, tr) => (Outcome.exited, tr)
  | (Outcome.panicked, tr) => (Outcome.panicked, tr)

/-- The part of `main` after the endpoints are open (lines 126-174): the
handshake, then the lighting commands. -/
def mainSession (ep : Endpoints) : Outcome Unit × List Event :=
  let res := ep.write [] CommandInit
  let tr1 := [Event.write CommandInit]
  if res.numBytes ≠ (CommandInit.length : Int) then
    (Outcome.exited, tr1)
  else
    let rd := ep.read tr1
    let tr2 := tr1 ++ [Event.read 64]
    if rd.numBytes ≠ 64 ∨ rd.err ≠ none then
      (Outcome.exited, tr2)
    else if !bytesEqual (slice rd.buf.data 2 3) StatusSuccess then
      (Outcome.exited, tr2)
    else
      andThen (lightOn ep tr2 ControllerPort1 255 255 255) fun tr3 =>
      andThen (lightOn ep tr3 ControllerPort2 255 125 0) fun tr4 =>
      andThen (lightOff ep tr4 ControllerPort1) fun tr5 =>
      andThen (lightOff ep tr5 ControllerPort2) fun tr6 =>
      andThen (lightOff ep tr6 ControllerPort3) fun tr7 =>
      (Outcome.returned (), tr7)

/-- The function `main` (lines 75-174), for the parsed `-verbose` flag, the
outcome of opening the device, and the behaviour of its endpoints. -/
def main (verbose : Int) (usb : UsbSetup) (ep : Endpoints) : Outcome Unit × List Event :=
  match logLevel verbose with
  | none => (Outcome.panicked, [])
  | some _ =>
    if usb.openErr then (Outcome.exited, [])
    else if usb.devNil then (Outcome.exited, [])
    else if usb.autoDetachErr then (Outcome.exited, [])
    else if usb.defaultInterfaceErr then (Outcome.exited, [])
    else if usb.outEndpointErr then (Outcome.exited, [])
    else if usb.inEndpointErr then (Outcome.exited, [])
    else mainSession ep

/-! ## Mode bytes -/

/-- The base modes that take a speed offset (marked `+RGBSpeed`, lines 35-40). -/
def speedModes : List Byte :=
  [RGBModeFlow, RGBModeSpectrum, RGBModeRipple, RGBModeBlink, RGBModePulse, RGBModeWave]

/-- The four speed offsets (lines 31-34). -/
def speeds : List Byte :=
  [RGBSpeedExtreme, RGBSpeedFast, RGBSpeedNormal, RGBSpeedSlow]

/-! ## Concrete devices, for evaluating the model -/

/-- A 64-byte reply whose byte 2 is `status` and whose other bytes are zero. -/
def replyWith (status : Byte) : Buffer64 :=
  ⟨[0, 0, status] ++ List.replicate 61 0, by simp⟩

/-- A device that accepts `n` bytes of every frame, with error `e`, and
answers every read with `rd`. -/
def constDevice (n : Int) (e : GoError) (rd : ReadResult) : Endpoints :=
  ⟨fun _ _ => ⟨n, e⟩, fun _ => rd⟩

/-- A device that accepts every frame in full and answers every read with 64
bytes, byte 2 being `status`. -/
def goodDevice (status : Byte) : Endpoints :=
  ⟨fun _ frame => ⟨(frame.length : Int), none⟩, fun _ => ⟨64, none, replyWith status⟩⟩

/-! ## Frames -/

/-- C1: for every port byte and colour, `lightOn` makes exactly one endpoint
call, a write on the OUT endpoint (no read), of the 7-byte frame
`[0x32, 0x52, port, 0x19, g, r, b]`; the colour is recovered from bytes 5
(red), 4 (green) and 6 (blue) of the frame. -/
theorem lightOn_frame (ep : Endpoints) (tr : List Event) (port r g b : Byte) :
    ∃ frame : List Byte,
      (lightOn ep tr port r g b).2 = tr ++ [Event.write frame] ∧
      frame = [0x32, 0x52, port, 0x19, g, r, b] ∧
      frame.length = 7 ∧
      frame.get? 5 = some r ∧ frame.get? 4 = some g ∧ frame.get? 6 = some b := by
  refine ⟨[0x32, 0x52, port, 0x19, g, r, b], ?_, rfl, rfl, rfl, rfl, rfl⟩
  unfold lightOn
  simp only []
  split <;> rfl

/-- The call `lightOn(0x01, 255, 255, 255)` writes `32 52 01 19 FF FF FF`. -/
theorem lightOn_frame_witness :
    ∃ frame : List Byte,
      (lightOn (goodDevice 0xfc) [] 0x01 255 255 255).2 = [] ++ [Event.write frame] ∧
      frame = [0x32, 0x52, 0x01, 0x19, 0xff, 0xff, 0xff] ∧
      frame.length = 7 ∧
      frame.get? 5 = some 255 ∧ frame.get? 4 = some 255 ∧ frame.get? 6 = some 255 :=
  lightOn_frame (goodDevice 0xfc) [] 0x01 255 255 255

/-- C2: for every port byte, `lightOff(port)` writes the frame
`[0x32, 0x52, port, 0x19, 0, 0, 0]`, the very frame `lightOn(port, 0, 0, 0)`
writes, and on the same device and history the two calls end the same way. -/
theorem lightOff_eq_lightOn_black (ep : Endpoints) (tr : List Event) (port : Byte) :
    (lightOff ep tr port).2 = tr ++ [Event.write [0x32, 0x52, port, 0x19, 0, 0, 0]] ∧
    (lightOn ep tr port 0 0 0).2 = tr ++ [Event.write [0x32, 0x52, port, 0x19, 0, 0, 0]] ∧
    (lightOff ep tr port).1 = (lightOn ep tr port 0 0 0).1 := by
  refine ⟨?_, ?_, ?_⟩
  · unfold lightOff
    simp only []
    split <;> rfl
  · unfold lightOn
    simp only []
    split <;> rfl
  · rfl

/-- C3: for every port byte and every speed byte, the first endpoint call of
`setSpeed` is the write of the 5-byte frame `[0x32, 0x51, port, 0x01, speed]`,
the speed byte unchanged. -/
theorem setSpeed_frame (ep : Endpoints) (tr : List Event) (port speed : Byte) :
    ∃ rest : List Event,
      (setSpeed ep tr port speed).2 =
        tr ++ Event.write [0x32, 0x51, port, 0x01, speed] :: rest ∧
      (rest = [] ∨ rest = [Event.read 64]) ∧
      ([0x32, 0x51, port, 0x01, speed] : List Byte).length = 5 := by
  unfold setSpeed
  simp only []
  split
  · exact ⟨[], rfl, Or.inl rfl, rfl⟩
  · refine ⟨[Event.read 64], ?_, Or.inr rfl, rfl⟩
    split
    · simp [CommandSetSpeed]
    · split <;> simp [CommandSetSpeed]

/-- C8: for every port, colour and speed byte, `lightPulse` makes exactly one
endpoint call, the write of a 7-byte frame whose bytes are
`0x32, 0x52, port, (0x10 + speed) mod 256, g, r, b`; for a speed in `0..3` the
sum does not wrap and the mode byte lies in `0x10..0x13`. -/
theorem lightPulse_frame (ep : Endpoints) (tr : List Event) (port speed r g b : Byte) :
    ∃ mode : Byte,
      (lightPulse ep tr port speed r g b).2 =
        tr ++ [Event.write [0x32, 0x52, port, mode, g, r, b]] ∧
      mode.val = (0x10 + speed.val) % 256 ∧
      (speed.val ≤ 3 → mode.val = 0x10 + speed.val ∧ 0x10 ≤ mode.val ∧ mode.val ≤ 0x13) := by
  refine ⟨byteAdd RGBModePulse speed, ?_, rfl, ?_⟩
  · unfold lightPulse
    simp only []
    split <;> rfl
  · intro h
    have hm : (byteAdd RGBModePulse speed).val = (0x10 + speed.val) % 256 := rfl
    rw [hm]
    omega

/-- The call `lightPulse(0x01, RGBSpeedSlow, 255, 0, 0)` writes a frame
`32 52 01 mode 00 FF 00` whose mode byte is `0x13`. -/
theorem lightPulse_frame_witness :
    RGBSpeedSlow.val ≤ 3 ∧
    ∃ mode : Byte,
      (lightPulse (goodDevice 0xfc) [] ControllerPort1 RGBSpeedSlow 255 0 0).2 =
        [] ++ [Event.write [0x32, 0x52, ControllerPort1, mode, 0, 255, 0]] ∧
      mode.val = 0x13 :=
  ⟨by decide,
    match lightPulse_frame (goodDevice 0xfc) [] ControllerPort1 RGBSpeedSlow 255 0 0 with
    | ⟨mode, htr, _, hsmall⟩ => ⟨mode, htr, (hsmall (by decide)).1⟩⟩

/-! ## Replies and failures -/

/-- The status test of lines 139 and 223, `bytes.Equal(buf[2:3], StatusSuccess)`,
holds exactly when byte 2 of the buffer is `0xfc`. -/
theorem statusCheck_iff (buf : Buffer64) :
    bytesEqual (slice buf.data 2 3) StatusSuccess = true ↔ buf.at 2 = 0xfc := by
  obtain ⟨data, hsize⟩ := buf
  match data, hsize with
  | _ :: _ :: c :: _, _ => simp [slice, bytesEqual, StatusSuccess, Buffer64.at]

/-- C4: when the OUT write of `setSpeed` transfers all 5 bytes of the frame,
then for every outcome of the IN read `setSpeed` returns to its caller (the
process does not end), and the value returned is `nil` exactly when the read
gave 64 bytes, no error, and byte 2 of the reply is `0xfc`. -/
theorem setSpeed_status (ep : Endpoints) (tr : List Event) (port speed : Byte)
    (hw : (ep.write tr [0x32, 0x51, port, 0x01, speed]).numBytes = 5) :
    ∃ e : GoError,
      (setSpeed ep tr port speed).1 = Outcome.returned e ∧
      (e = none ↔
        (ep.read (tr ++ [Event.write [0x32, 0x51, port, 0x01, speed]])).numBytes = 64 ∧
        (ep.read (tr ++ [Event.write [0x32, 0x51, port, 0x01, speed]])).err = none ∧
        (ep.read (tr ++ [Event.write [0x32, 0x51, port, 0x01, speed]])).buf.at 2 = 0xfc) := by
  have hst := statusCheck_iff
    (ep.read (tr ++ [Event.write [0x32, 0x51, port, 0x01, speed]])).buf
  unfold setSpeed
  simp only [CommandSetSpeed, List.cons_append, List.nil_append, List.length_cons,
    List.length_nil]
  rw [if_neg (by simpa using hw)]
  split
  · rename_i h
    refine ⟨_, rfl, ?_⟩
    constructor
    · intro hc
      cases hc
    · rintro ⟨h1, h2, _⟩
      rcases h with h | h
      · exact absurd h1 h
      · exact absurd h2 h
  · rename_i h
    have h1 : (ep.read (tr ++ [Event.write [0x32, 0x51, port, 0x01, speed]])).numBytes = 64 := by
      by_contra hc
      exact h (Or.inl hc)
    have h2 : (ep.read (tr ++ [Event.write [0x32, 0x51, port, 0x01, speed]])).err = none := by
      by_contra hc
      exact h (Or.inr hc)
    split
    · rename_i hb
      refine ⟨_, rfl, ?_⟩
      constructor
      · intro hc
        cases hc
      · rintro ⟨_, _, h3⟩
        rw [hst.mpr h3] at hb
        simp at hb
    · rename_i hb
      refine ⟨none, rfl, ?_⟩
      constructor
      · intro _
        refine ⟨h1, h2, hst.mp ?_⟩
        simpa using hb
      · intro _
        rfl

/-- On a device that takes the whole frame and replies with status `0xfe`,
`setSpeed(1, 20)` returns a non-nil error: the status byte is not `0xfc`. -/
theorem setSpeed_status_witness :
    ((goodDevice 0xfe).write [] [0x32, 0x51, 0x01, 0x01, 20]).numBytes = 5 ∧
    ∃ e : GoError,
      (setSpeed (goodDevice 0xfe) [] 0x01 20).1 = Outcome.returned e ∧
      (e = none ↔
        ((goodDevice 0xfe).read ([] ++ [Event.write [0x32, 0x51, 0x01, 0x01, 20]])).numBytes = 64 ∧
        ((goodDevice 0xfe).read ([] ++ [Event.write [0x32, 0x51, 0x01, 0x01, 20]])).err = none ∧
        ((goodDevice 0xfe).read ([] ++ [Event.write [0x32, 0x51, 0x01, 0x01, 20]])).buf.at 2 = 0xfc) :=
  ⟨rfl, setSpeed_status (goodDevice 0xfe) [] 0x01 20 rfl⟩

/-- C6, as the code has it: when the OUT write of `setSpeed` transfers a byte
count other than 5, the process ends in `log.Fatal` after that one write, with
no read; when the write is complete and the IN read fails or does not give 64
bytes, `setSpeed` returns the error "failed to read from setSpeed command" to
its caller, after one write and one read. -/
theorem setSpeed_transport_failure (ep : Endpoints) (tr : List Event) (port speed : Byte) :
    ((ep.write tr [0x32, 0x51, port, 0x01, speed]).numBytes ≠ 5 →
      setSpeed ep tr port speed =
        (Outcome.exited, tr ++ [Event.write [0x32, 0x51, port, 0x01, speed]])) ∧
    ((ep.write tr [0x32, 0x51, port, 0x01, speed]).numBytes = 5 →
      ((ep.read (tr ++ [Event.write [0x32, 0x51, port, 0x01, speed]])).numBytes ≠ 64 ∨
        (ep.read (tr ++ [Event.write [0x32, 0x51, port, 0x01, speed]])).err ≠ none) →
      setSpeed ep tr port speed =
        (Outcome.returned (some "failed to read from setSpeed command"),
          tr ++ [Event.write [0x32, 0x51, port, 0x01, speed]] ++ [Event.read 64])) := by
  constructor
  · intro hw
    unfold setSpeed
    simp only [CommandSetSpeed, List.cons_append, List.nil_append, List.length_cons,
      List.length_nil]
    rw [if_pos (by simpa using hw)]
  · intro hw hr
    unfold setSpeed
    simp only [CommandSetSpeed, List.cons_append, List.nil_append, List.length_cons,
      List.length_nil]
    rw [if_neg (by simpa using hw), if_pos hr]

/-- Two devices for `setSpeed(1, 20)`.  One transfers 2 of the 5 bytes: the
process ends after the write.  The other takes the frame and then gives a
short read (10 bytes, error "timeout"): the read error is returned. -/
theorem setSpeed_transport_failure_witness :
    (((constDevice 2 none ⟨64, none, replyWith 0xfc⟩).write []
        [0x32, 0x51, 0x01, 0x01, 20]).numBytes ≠ 5 ∧
      setSpeed (constDevice 2 none ⟨64, none, replyWith 0xfc⟩) [] 0x01 20 =
        (Outcome.exited, [] ++ [Event.write [0x32, 0x51, 0x01, 0x01, 20]])) ∧
    (((constDevice 5 none ⟨10, some "timeout", replyWith 0⟩).write []
        [0x32, 0x51, 0x01, 0x01, 20]).numBytes = 5 ∧
      ((constDevice 5 none ⟨10, some "timeout", replyWith 0⟩).read
        ([] ++ [Event.write [0x32, 0x51, 0x01, 0x01, 20]])).numBytes ≠ 64 ∧
      setSpeed (constDevice 5 none ⟨10, some "timeout", replyWith 0⟩) [] 0x01 20 =
        (Outcome.returned (some "failed to read from setSpeed command"),
          [] ++ [Event.write [0x32, 0x51, 0x01, 0x01, 20]] ++ [Event.read 64])) :=
  ⟨⟨by decide,
      (setSpeed_transport_failure (constDevice 2 none ⟨64, none, replyWith 0xfc⟩)
        [] 0x01 20).1 (by decide)⟩,
    ⟨rfl, by decide,
      (setSpeed_transport_failure (constDevice 5 none ⟨10, some "timeout", replyWith 0⟩)
        [] 0x01 20).2 rfl (Or.inl (by decide))⟩⟩

/-- C6 fails as stated: on a device whose OUT write transfers 0 bytes,
`setSpeed(1, 20)` does not return to its caller, the process ends. -/
theorem setSpeed_short_write_exits :
    ((constDevice 0 (some "timeout") ⟨64, none, replyWith 0xfc⟩).write []
        [0x32, 0x51, 0x01, 0x01, 20]).numBytes ≠ 5 ∧
    (setSpeed (constDevice 0 (some "timeout") ⟨64, none, replyWith 0xfc⟩) [] 0x01 20).1 =
      Outcome.exited ∧
    ¬ ∃ e : GoError,
      (setSpeed (constDevice 0 (some "timeout") ⟨64, none, replyWith 0xfc⟩) [] 0x01 20).1 =
        Outcome.returned e := by
  refine ⟨by decide, rfl, ?_⟩
  rintro ⟨e, he⟩
  have hx : (setSpeed (constDevice 0 (some "timeout") ⟨64, none, replyWith 0xfc⟩)
      [] 0x01 20).1 = Outcome.exited := rfl
  rw [hx] at he
  cases he

/-- C7, as the code has it: each of `lightOn`, `lightOff`, `lightPulse` looks
at the byte count of the OUT write only.  A count other than the frame length
(7) ends the process in `log.Fatal`, so `nil` is not returned; a count of 7
makes the operation return `nil`, whatever the error of the write. -/
theorem light_write_check (ep : Endpoints) (tr : List Event) (port speed r g b : Byte) :
    ((ep.write tr [0x32, 0x52, port, 0x19, g, r, b]).numBytes ≠ 7 →
      (lightOn ep tr port r g b).1 = Outcome.exited) ∧
    ((ep.write tr [0x32, 0x52, port, 0x19, g, r, b]).numBytes = 7 →
      (lightOn ep tr port r g b).1 = Outcome.returned none) ∧
    ((ep.write tr [0x32, 0x52, port, 0x19, 0, 0, 0]).numBytes ≠ 7 →
      (lightOff ep tr port).1 = Outcome.exited) ∧
    ((ep.write tr [0x32, 0x52, port, 0x19, 0, 0, 0]).numBytes = 7 →
      (lightOff ep tr port).1 = Outcome.returned none) ∧
    ((ep.write tr [0x32, 0x52, port, byteAdd 0x10 speed, g, r, b]).numBytes ≠ 7 →
      (lightPulse ep tr port speed r g b).1 = Outcome.exited) ∧
    ((ep.write tr [0x32, 0x52, port, byteAdd 0x10 speed, g, r, b]).numBytes = 7 →
      (lightPulse ep tr port speed r g b).1 = Outcome.returned none) := by
  refine ⟨?_, ?_, ?_, ?_, ?_, ?_⟩
  · intro h
    unfold lightOn
    simp only [CommandSetRGB, RGBModeFull, List.cons_append, List.nil_append, List.length_cons,
      List.length_nil]
    rw [if_pos (by simpa using h)]
  · intro h
    unfold lightOn
    simp only [CommandSetRGB, RGBModeFull, List.cons_append, List.nil_append, List.length_cons,
      List.length_nil]
    rw [if_neg (by simpa using h)]
  · intro h
    unfold lightOff
    simp only [CommandSetRGB, RGBModeFull, List.cons_append, List.nil_append, List.length_cons,
      List.length_nil]
    rw [if_pos (by simpa using h)]
  · intro h
    unfold lightOff
    simp only [CommandSetRGB, RGBModeFull, List.cons_append, List.nil_append, List.length_cons,
      List.length_nil]
    rw [if_neg (by simpa using h)]
  · intro h
    unfold lightPulse
    simp only [CommandSetRGB, RGBModePulse, List.cons_append, List.nil_append, List.length_cons,
      List.length_nil]
    rw [if_pos (by simpa using h)]
  · intro h
    unfold lightPulse
    simp only [CommandSetRGB, RGBModePulse, List.cons_append, List.nil_append, List.length_cons,
      List.length_nil]
    rw [if_neg (by simpa using h)]

/-- A write that transfers 3 of the 7 bytes ends the process in each of
`lightOn(1, 255, 255, 255)`, `lightOff(1)` and `lightPulse(1, 3, 255, 0, 0)`; a
write that transfers all 7 makes `lightOff(1)` return `nil`. -/
theorem light_write_check_witness :
    ((constDevice 3 (some "timeout") ⟨64, none, replyWith 0xfc⟩).write []
        [0x32, 0x52, 0x01, 0x19, 255, 255, 255]).numBytes ≠ 7 ∧
    (lightOn (constDevice 3 (some "timeout") ⟨64, none, replyWith 0xfc⟩) []
        0x01 255 255 255).1 = Outcome.exited ∧
    (lightOff (constDevice 3 (some "timeout") ⟨64, none, replyWith 0xfc⟩) [] 0x01).1 =
      Outcome.exited ∧
    (lightPulse (constDevice 3 (some "timeout") ⟨64, none, replyWith 0xfc⟩) []
        0x01 0x03 255 0 0).1 = Outcome.exited ∧
    ((goodDevice 0xfc).write [] [0x32, 0x52, 0x01, 0x19, 0, 0, 0]).numBytes = 7 ∧
    (lightOff (goodDevice 0xfc) [] 0x01).1 = Outcome.returned none :=
  ⟨by decide,
    (light_write_check (constDevice 3 (some "timeout") ⟨64, none, replyWith 0xfc⟩)
      [] 0x01 0 255 255 255).1 (by decide),
    (light_write_check (constDevice 3 (some "timeout") ⟨64, none, replyWith 0xfc⟩)
      [] 0x01 0 255 255 255).2.2.1 (by decide),
    (light_write_check (constDevice 3 (some "timeout") ⟨64, none, replyWith 0xfc⟩)
      [] 0x01 0x03 255 0 0).2.2.2.2.1 (by decide),
    rfl,
    (light_write_check (goodDevice 0xfc) [] 0x01 0 0 0 0).2.2.2.1 rfl⟩

/-- C7 fails as stated: a write that reports the error "stall" together with
the full byte count 7 makes `lightOn(1, 255, 255, 255)` return `nil`. -/
theorem lightOn_ignores_write_error :
    ((constDevice 7 (some "stall") ⟨64, none, replyWith 0xfc⟩).write []
        [0x32, 0x52, 0x01, 0x19, 255, 255, 255]).err ≠ none ∧
    (lightOn (constDevice 7 (some "stall") ⟨64, none, replyWith 0xfc⟩) []
        0x01 255 255 255).1 = Outcome.returned none :=
  ⟨by decide, rfl⟩

/-! ## The handshake of `main` -/

/-- The trace of `lightOn` is the history followed by one write. -/
theorem lightOn_trace (ep : Endpoints) (tr : List Event) (port r g b : Byte) :
    (lightOn ep tr port r g b).2 = tr ++ [Event.write [0x32, 0x52, port, 0x19, g, r, b]] := by
  unfold lightOn
  simp only []
  split <;> rfl

/-- The trace of `lightOff` is the history followed by one write. -/
theorem lightOff_trace (ep : Endpoints) (tr : List Event) (port : Byte) :
    (lightOff ep tr port).2 = tr ++ [Event.write [0x32, 0x52, port, 0x19, 0, 0, 0]] := by
  unfold lightOff
  simp only []
  split <;> rfl

/-- Sequencing two steps that only append to the history only appends to it. -/
theorem andThen_extends (step : List Event → Outcome GoError × List Event)
    (next : List Event → Outcome Unit × List Event)
    (hs : ∀ tr, ∃ rest, (step tr).2 = tr ++ rest)
    (hn : ∀ tr, ∃ rest, (next tr).2 = tr ++ rest) :
    ∀ tr, ∃ rest, (andThen (step tr) next).2 = tr ++ rest := by
  intro tr
  obtain ⟨r1, h1⟩ := hs tr
  rcases hst : step tr with ⟨o, t⟩
  rw [hst] at h1
  simp only at h1
  subst h1
  cases o with
  | returned a =>
    obtain ⟨r2, h2⟩ := hn (tr ++ r1)
    exact ⟨r1 ++ r2, by simp [andThen, h2]⟩
  | exited => exact ⟨r1, rfl⟩
  | panicked => exact ⟨r1, rfl⟩

/-- The lighting commands of `main` after the first one (lines 147-172) only
append to the history. -/
theorem main_tail_extends (ep : Endpoints) :
    ∀ tr, ∃ rest,
      (andThen (lightOn ep tr ControllerPort2 255 125 0) fun tr4 =>
        andThen (lightOff ep tr4 ControllerPort1) fun tr5 =>
        andThen (lightOff ep tr5 ControllerPort2) fun tr6 =>
        andThen (lightOff ep tr6 ControllerPort3) fun tr7 =>
        (Outcome.returned (), tr7)).2 = tr ++ rest := by
  refine andThen_extends (fun tr => lightOn ep tr ControllerPort2 255 125 0) _
    (fun tr => ⟨_, lightOn_trace ep tr _ _ _ _⟩) ?_
  refine andThen_extends (fun tr => lightOff ep tr ControllerPort1) _
    (fun tr => ⟨_, lightOff_trace ep tr _⟩) ?_
  refine andThen_extends (fun tr => lightOff ep tr ControllerPort2) _
    (fun tr => ⟨_, lightOff_trace ep tr _⟩) ?_
  refine andThen_extends (fun tr => lightOff ep tr ControllerPort3) _
    (fun tr => ⟨_, lightOff_trace ep tr _⟩) ?_
  intro tr
  exact ⟨[], by simp⟩

/-- What `mainSession` does, by the outcome of the handshake. -/
theorem mainSession_cases (ep : Endpoints) :
    ((ep.write [] [0xfe, 0x33]).numBytes ≠ 2 →
      mainSession ep = (Outcome.exited, [Event.write [0xfe, 0x33]])) ∧
    ((ep.write [] [0xfe, 0x33]).numBytes = 2 →
      ((ep.read [Event.write [0xfe, 0x33]]).numBytes ≠ 64 ∨
        (ep.read [Event.write [0xfe, 0x33]]).err ≠ none ∨
        (ep.read [Event.write [0xfe, 0x33]]).buf.at 2 ≠ 0xfc) →
      mainSession ep = (Outcome.exited, [Event.write [0xfe, 0x33], Event.read 64])) ∧
    ((ep.write [] [0xfe, 0x33]).numBytes = 2 →
      (ep.read [Event.write [0xfe, 0x33]]).numBytes = 64 →
      (ep.read [Event.write [0xfe, 0x33]]).err = none →
      (ep.read [Event.write [0xfe, 0x33]]).buf.at 2 = 0xfc →
      ∃ rest : List Event,
        (mainSession ep).2 =
          [Event.write [0xfe, 0x33], Event.read 64,
            Event.write [0x32, 0x52, 0x01, 0x19, 255, 255, 255]] ++ rest) := by
  have hst := statusCheck_iff (ep.read [Event.write [0xfe, 0x33]]).buf
  refine ⟨?_, ?_, ?_⟩
  · intro hw
    unfold mainSession
    simp only [CommandInit, List.length_cons, List.length_nil]
    rw [if_pos (by simpa using hw)]
  · intro hw hr
    unfold mainSession
    simp only [CommandInit, List.length_cons, List.length_nil, List.cons_append,
      List.nil_append]
    rw [if_neg (by simpa using hw)]
    by_cases h12 : (ep.read [Event.write [0xfe, 0x33]]).numBytes ≠ 64 ∨
        (ep.read [Event.write [0xfe, 0x33]]).err ≠ none
    · rw [if_pos h12]
    · rw [if_neg h12]
      have h3 : (ep.read [Event.write [0xfe, 0x33]]).buf.at 2 ≠ 0xfc := by
        rcases hr with h | h | h
        · exact absurd (Or.inl h) h12
        · exact absurd (Or.inr h) h12
        · exact h
      have hb : bytesEqual (slice (ep.read [Event.write [0xfe, 0x33]]).buf.data 2 3)
          StatusSuccess = false := by
        cases hx : bytesEqual (slice (ep.read [Event.write [0xfe, 0x33]]).buf.data 2 3)
          StatusSuccess
        · rfl
        · exact absurd (hst.mp hx) h3
      rw [hb]
      rfl
  · intro hw h1 h2 h3
    unfold mainSession
    simp only [CommandInit, List.length_cons, List.length_nil, List.cons_append,
      List.nil_append]
    rw [if_neg (by simpa using hw), if_neg (by simp [h1, h2]), hst.mpr h3]
    simp only [Bool.not_true, Bool.false_eq_true, if_false]
    have htr := lightOn_trace ep [Event.write [0xfe, 0x33], Event.read 64]
      ControllerPort1 255 255 255
    rcases hl : lightOn ep [Event.write [0xfe, 0x33], Event.read 64]
      ControllerPort1 255 255 255 with ⟨o, t⟩
    rw [hl] at htr
    simp only at htr
    subst htr
    cases o with
    | returned a =>
      obtain ⟨rest, hrest⟩ := main_tail_extends ep
        ([Event.write [0xfe, 0x33], Event.read 64] ++
          [Event.write [0x32, 0x52, ControllerPort1, 0x19, 255, 255, 255]])
      exact ⟨rest, by simpa [andThen, ControllerPort1] using hrest⟩
    | exited => exact ⟨[], rfl⟩
    | panicked => exact ⟨[], rfl⟩

/-- C5: in `main`, once the endpoints are open, the first endpoint call is the
write of the init frame `[0xfe, 0x33]`.  If it does not transfer 2 bytes the
process ends with nothing else written; if the read that follows does not give
64 bytes without error, or byte 2 of the reply is not `0xfc`, the process ends
with nothing else written; if all three hold, the next endpoint call is the
write of the lighting frame `32 52 01 19 FF FF FF`.  When the endpoints could
not be opened nothing is written at all. -/
theorem main_handshake_gate (verbose : Int) (usb : UsbSetup) (ep : Endpoints) :
    ((verbose = 0 ∨ usb ≠ ⟨false, false, false, false, false, false⟩) →
      (main verbose usb ep).1 ≠ Outcome.returned () ∧ (main verbose usb ep).2 = []) ∧
    (verbose ≠ 0 → usb = ⟨false, false, false, false, false, false⟩ →
      ((ep.write [] [0xfe, 0x33]).numBytes ≠ 2 →
        main verbose usb ep = (Outcome.exited, [Event.write [0xfe, 0x33]])) ∧
      ((ep.write [] [0xfe, 0x33]).numBytes = 2 →
        ((ep.read [Event.write [0xfe, 0x33]]).numBytes ≠ 64 ∨
          (ep.read [Event.write [0xfe, 0x33]]).err ≠ none ∨
          (ep.read [Event.write [0xfe, 0x33]]).buf.at 2 ≠ 0xfc) →
        main verbose usb ep =
          (Outcome.exited, [Event.write [0xfe, 0x33], Event.read 64])) ∧
      ((ep.write [] [0xfe, 0x33]).numBytes = 2 →
        (ep.read [Event.write [0xfe, 0x33]]).numBytes = 64 →
        (ep.read [Event.write [0xfe, 0x33]]).err = none →
        (ep.read [Event.write [0xfe, 0x33]]).buf.at 2 = 0xfc →
        ∃ rest : List Event,
          (main verbose usb ep).2 =
            [Event.write [0xfe, 0x33], Event.read 64,
              Event.write [0x32, 0x52, 0x01, 0x19, 255, 255, 255]] ++ rest)) := by
  refine ⟨?_, ?_⟩
  · intro h
    unfold main logLevel
    by_cases hv : verbose = 0
    · simp [hv]
    · rcases h with h | h
      · exact absurd h hv
      · obtain ⟨a, b, c, d, e, f⟩ := usb
        simp only [if_neg hv]
        cases a <;> cases b <;> cases c <;> cases d <;> cases e <;> cases f <;>
          first
            | exact absurd rfl h
            | exact ⟨(by simp), rfl⟩
  · intro hv hu
    have hm : main verbose usb ep = mainSession ep := by
      subst hu
      unfold main logLevel
      simp [hv]
    rw [hm]
    exact mainSession_cases ep

/-- On a device that accepts every frame and replies with status `0xfc`,
`main` writes the init frame, reads the reply, and then writes its five
lighting frames. -/
theorem main_handshake_gate_witness :
    (3 : Int) ≠ 0 ∧
    ((goodDevice 0xfc).write [] [0xfe, 0x33]).numBytes = 2 ∧
    ((goodDevice 0xfc).read [Event.write [0xfe, 0x33]]).numBytes = 64 ∧
    ((goodDevice 0xfc).read [Event.write [0xfe, 0x33]]).err = none ∧
    ((goodDevice 0xfc).read [Event.write [0xfe, 0x33]]).buf.at 2 = 0xfc ∧
    (∃ rest : List Event,
      (main 3 ⟨false, false, false, false, false, false⟩ (goodDevice 0xfc)).2 =
        [Event.write [0xfe, 0x33], Event.read 64,
          Event.write [0x32, 0x52, 0x01, 0x19, 255, 255, 255]] ++ rest) ∧
    main 3 ⟨false, false, false, false, false, false⟩ (goodDevice 0xfc) =
      (Outcome.returned (),
        [Event.write [0xfe, 0x33], Event.read 64,
          Event.write [0x32, 0x52, 0x01, 0x19, 255, 255, 255],
          Event.write [0x32, 0x52, 0x02, 0x19, 125, 255, 0],
          Event.write [0x32, 0x52, 0x01, 0x19, 0, 0, 0],
          Event.write [0x32, 0x52, 0x02, 0x19, 0, 0, 0],
          Event.write [0x32, 0x52, 0x03, 0x19, 0, 0, 0]]) :=
  ⟨by decide, rfl, rfl, rfl, rfl,
    ((main_handshake_gate 3 ⟨false, false, false, false, false, false⟩ (goodDevice 0xfc)).2
      (by decide) rfl).2.2 rfl rfl rfl rfl,
    rfl⟩

/-! ## Mode bytes and the log level -/

/-- The base modes that take a speed are the multiples of 4 up to `0x14`. -/
theorem mem_speedModes_iff (m : Byte) : m ∈ speedModes ↔ m.val % 4 = 0 ∧ m.val ≤ 20 := by
  simp only [speedModes, RGBModeFlow, RGBModeSpectrum, RGBModeRipple, RGBModeBlink,
    RGBModePulse, RGBModeWave, List.mem_cons, List.mem_singleton, List.not_mem_nil,
    or_false, Fin.ext_iff]
  have h0 : ((0x00 : Byte) : Nat) = 0 := rfl
  have h4 : ((0x04 : Byte) : Nat) = 4 := rfl
  have h8 : ((0x08 : Byte) : Nat) = 8 := rfl
  have hc : ((0x0c : Byte) : Nat) = 12 := rfl
  have h10 : ((0x10 : Byte) : Nat) = 16 := rfl
  have h14 : ((0x14 : Byte) : Nat) = 20 := rfl
  rw [h0, h4, h8, hc, h10, h14]
  omega

/-- The speeds are the bytes `0..3`. -/
theorem mem_speeds_iff (s : Byte) : s ∈ speeds ↔ s.val ≤ 3 := by
  simp only [speeds, RGBSpeedExtreme, RGBSpeedFast, RGBSpeedNormal, RGBSpeedSlow,
    List.mem_cons, List.mem_singleton, List.not_mem_nil, or_false, Fin.ext_iff]
  have h0 : ((0x00 : Byte) : Nat) = 0 := rfl
  have h1 : ((0x01 : Byte) : Nat) = 1 := rfl
  have h2 : ((0x02 : Byte) : Nat) = 2 := rfl
  have h3 : ((0x03 : Byte) : Nat) = 3 := rfl
  rw [h0, h1, h2, h3]
  omega

/-- The value of a byte sum. -/
theorem byteAdd_val (a b : Byte) : (byteAdd a b).val = (a.val + b.val) % 256 := rfl

/-- C9: over the six base modes that take a speed and the four speeds, the
mode byte `mode + speed` determines the pair (mode, speed); every such byte
is below `0x18`, so it is neither `RGBModePerLed` nor `RGBModeFull`; and every
byte `x` below `0x18` is the mode byte of the pair `(x - x mod 4, x mod 4)` and of
no other pair. -/
theorem modeByte_unambiguous :
    (∀ m1 ∈ speedModes, ∀ s1 ∈ speeds, ∀ m2 ∈ speedModes, ∀ s2 ∈ speeds,
      byteAdd m1 s1 = byteAdd m2 s2 → m1 = m2 ∧ s1 = s2) ∧
    (∀ m ∈ speedModes, ∀ s ∈ speeds,
      (byteAdd m s).val = m.val + s.val ∧ (byteAdd m s).val < 0x18 ∧
      byteAdd m s ≠ RGBModePerLed ∧ byteAdd m s ≠ RGBModeFull) ∧
    (∀ x : Byte, x.val < 0x18 →
      (∃ m ∈ speedModes, ∃ s ∈ speeds, byteAdd m s = x) ∧
      (∀ m ∈ speedModes, ∀ s ∈ speeds,
        byteAdd m s = x → m.val = x.val - x.val % 4 ∧ s.val = x.val % 4)) := by
  have hPerLed : (RGBModePerLed : Byte).val = 24 := rfl
  have hFull : (RGBModeFull : Byte).val = 25 := rfl
  refine ⟨?_, ?_, ?_⟩
  · intro m1 hm1 s1 hs1 m2 hm2 s2 hs2 h
    rw [mem_speedModes_iff] at hm1 hm2
    rw [mem_speeds_iff] at hs1 hs2
    have hv := congrArg Fin.val h
    rw [byteAdd_val, byteAdd_val] at hv
    constructor
    · apply Fin.ext
      omega
    · apply Fin.ext
      omega
  · intro m hm s hs
    rw [mem_speedModes_iff] at hm
    rw [mem_speeds_iff] at hs
    have hv := byteAdd_val m s
    refine ⟨by omega, by omega, ?_, ?_⟩
    · intro hc
      have := congrArg Fin.val hc
      omega
    · intro hc
      have := congrArg Fin.val hc
      omega
  · intro x hx
    constructor
    · refine ⟨⟨x.val - x.val % 4, by omega⟩, ?_, ⟨x.val % 4, by omega⟩, ?_, ?_⟩
      · rw [mem_speedModes_iff]
        show (x.val - x.val % 4) % 4 = 0 ∧ x.val - x.val % 4 ≤ 20
        omega
      · rw [mem_speeds_iff]
        show x.val % 4 ≤ 3
        omega
      · apply Fin.ext
        show (x.val - x.val % 4 + x.val % 4) % 256 = x.val
        omega
    · intro m hm s hs h
      rw [mem_speedModes_iff] at hm
      rw [mem_speeds_iff] at hs
      have hv := congrArg Fin.val h
      rw [byteAdd_val] at hv
      omega

/-- The mode byte `0x13` is pulse at slow speed, and nothing else. -/
theorem modeByte_unambiguous_witness :
    RGBModePulse ∈ speedModes ∧ RGBSpeedSlow ∈ speeds ∧ ((0x13 : Byte).val < 0x18) ∧
    byteAdd RGBModePulse RGBSpeedSlow = 0x13 ∧
    RGBModePulse.val = (0x13 : Byte).val - (0x13 : Byte).val % 4 ∧
    RGBSpeedSlow.val = (0x13 : Byte).val % 4 :=
  ⟨by decide, by decide, by decide, by decide,
    (modeByte_unambiguous.2.2 0x13 (by decide)).2 RGBModePulse (by decide) RGBSpeedSlow
      (by decide) (by decide)⟩

/-- C10 on the code: `5 % verbose` is defined for the verbose levels 1 to 5,
with the values 0, 1, 2, 1, 0.  The level for verbose 2 is above the level
for verbose 1, so the level is not monotone in the verbose value. -/
theorem logLevel_values :
    logLevel 1 = some 0 ∧ logLevel 2 = some 1 ∧ logLevel 3 = some 2 ∧
    logLevel 4 = some 1 ∧ logLevel 5 = some 0 ∧
    ¬ (∀ a b la lb : Int, 1 ≤ a → a < b → b ≤ 5 →
        logLevel a = some la → logLevel b = some lb → lb ≤ la) := by
  refine ⟨by decide, by decide, by decide, by decide, by decide, ?_⟩
  intro h
  exact absurd (h 1 2 0 1 (by decide) (by decide) (by decide) (by decide) (by decide))
    (by decide)

end TTRGB
